import Mathlib

/-!
Shallow embedding of `stable-heap` (`src/lib.rs`): raw, alignment-aware
allocation and deallocation primitives built on top of `Vec`.

Machine addresses and sizes (`usize`) are modelled as `Nat`; the bitwise
operations that appear in the source (`&`, `>>`) cannot overflow, so no
modular reduction is needed.  The Rust unit types `u8`/`u16`/`u32`/`u64`
are modelled by their size and natural alignment.  The platform
general-purpose allocator that `Vec` delegates to is external to the
repository and is modelled abstractly.
-/

namespace StableHeap

/-- Model of a Rust element type by its size in bytes and its natural
alignment in bytes (the repository's `test_align` pins these for the four
unit types below). -/
structure UnitTy where
  size : Nat
  align : Nat
deriving DecidableEq

/-- Rust `u8`: size 1, alignment 1. -/
def u8 : UnitTy := ⟨1, 1⟩

/-- Rust `u16`: size 2, alignment 2. -/
def u16 : UnitTy := ⟨2, 2⟩

/-- Rust `u32`: size 4, alignment 4. -/
def u32 : UnitTy := ⟨4, 4⟩

/-- Rust `u64`: size 8, alignment 8. -/
def u64 : UnitTy := ⟨8, 8⟩

/-- Rust `()`: size 0, alignment 1 (the type used by `test_empty_constant`). -/
def rustUnit : UnitTy := ⟨0, 1⟩

/-- Modelled from the spec: the platform's general-purpose memory allocator,
the external collaborator that services the underlying capacity requests.
`rawAlloc T cap` returns the base address of a block holding `cap` elements
of type `T`, or `0` (a null pointer) when the request cannot be serviced
(out of memory).  Only positive capacities of non-zero-size types reach it. -/
structure Platform where
  rawAlloc : UnitTy → Nat → Nat

/-- Modelled from the spec: address behaviour of
`Vec::<T>::with_capacity(cap).as_ptr()` from the Rust standard library
(external to the repository).  A zero-capacity request, or any request for a
zero-size type, performs no allocation and reports the dangling pointer whose
address is the alignment of `T`; otherwise the platform allocator services
the request (`0` signalling failure). -/
def vec_with_capacity_ptr (p : Platform) (T : UnitTy) (cap : Nat) : Nat :=
  if cap = 0 ∨ T.size = 0 then T.align else p.rawAlloc T cap

/-- The constant `EMPTY: *mut () = 0x1 as *mut ()`: an arbitrary non-null
address representing zero-size allocations. -/
def EMPTY : Nat := 1

/-- Outcome of `allocate`: the two distinct panic sites (the argument
assertion and the unsupported-alignment arm), or a normal return carrying
the address (`0` = null). -/
inductive AllocResult where
  | assertFailed : AllocResult
  | unsupportedAlign : AllocResult
  | ok : Nat → AllocResult
deriving DecidableEq

/-- Whether an `allocate` outcome is a fatal abort rather than a normal
return. -/
def AllocResult.isAbort : AllocResult → Bool
  | .ok _ => false
  | _ => true

/-- Embedding of `do_allocate::<T>(capacity)`: builds `Vec::<T>` with the
given capacity, takes its raw pointer and forgets the vector, returning the
address. -/
def do_allocate (p : Platform) (T : UnitTy) (capacity : Nat) : Nat :=
  vec_with_capacity_ptr p T capacity

/-- Embedding of `allocate(size, align)`: first the argument assertion
`assert!(size & align == 0)`, then the dispatch on `align` to the unit type
of matching alignment with capacity `size >> log2(align)`. -/
def allocate (p : Platform) (size align : Nat) : AllocResult :=
  if size &&& align = 0 then
    match align with
    | 1 => .ok (do_allocate p u8 size)
    | 2 => .ok (do_allocate p u16 (size >>> 1))
    | 4 => .ok (do_allocate p u32 (size >>> 2))
    | 8 => .ok (do_allocate p u64 (size >>> 3))
    | _ => .unsupportedAlign
  else
    .assertFailed

/-- Record of the `Vec::from_raw_parts(ptr as *mut T, len, cap)` call through
which `do_deallocate` returns the block to the platform allocator. -/
structure FreeCall where
  T : UnitTy
  ptr : Nat
  len : Nat
  cap : Nat
deriving DecidableEq

/-- Outcome of `deallocate`: the unsupported-alignment panic, or a normal
return recording the reconstructed buffer handle that was freed. -/
inductive DeallocResult where
  | unsupportedAlign : DeallocResult
  | ok : FreeCall → DeallocResult
deriving DecidableEq

/-- Whether a `deallocate` outcome is a fatal abort rather than a normal
return. -/
def DeallocResult.isAbort : DeallocResult → Bool
  | .ok _ => false
  | _ => true

/-- Embedding of `do_deallocate::<T>(ptr, capacity)`: reconstructs a vector
over `T` at `ptr` with length `0` and the given capacity and lets it drop. -/
def do_deallocate (T : UnitTy) (ptr capacity : Nat) : FreeCall :=
  ⟨T, ptr, 0, capacity⟩

/-- Embedding of `deallocate(ptr, old_size, align)`: dispatch on `align` to
the unit type of matching alignment with capacity `old_size >> log2(align)`;
no argument assertion precedes the dispatch. -/
def deallocate (ptr old_size align : Nat) : DeallocResult :=
  match align with
  | 1 => .ok (do_deallocate u8 ptr old_size)
  | 2 => .ok (do_deallocate u16 ptr (old_size >>> 1))
  | 4 => .ok (do_deallocate u32 ptr (old_size >>> 2))
  | 8 => .ok (do_deallocate u64 ptr (old_size >>> 3))
  | _ => .unsupportedAlign

/-- The unit type the dispatch in `allocate`/`deallocate` selects for each
supported alignment (junk value `u8` outside the supported set, where the
dispatch panics instead). -/
def unitOf : Nat → UnitTy
  | 2 => u16
  | 4 => u32
  | 8 => u64
  | _ => u8

/-- The shift amount the dispatch applies for each supported alignment,
i.e. `log2(align)` on the supported set. -/
def log2align : Nat → Nat
  | 2 => 1
  | 4 => 2
  | 8 => 3
  | _ => 0

/-- A platform allocator that aligns every block of elements of type `T` to
at least the natural alignment of `T` — the guarantee the algorithm relies
on (stated for our address model; address `0` is the null failure return,
trivially divisible). -/
def PlatformAligned (p : Platform) : Prop :=
  ∀ T cap, T.align ∣ p.rawAlloc T cap

/-- A platform that always reports out-of-memory. -/
def oomPlatform : Platform := ⟨fun _ _ => 0⟩

/-- A platform returning, for each element type, its alignment as the block
address (the smallest non-null correctly aligned address). -/
def alignedPlatform : Platform := ⟨fun T _ => T.align⟩

/-- The address produced by `do_allocate` is a multiple of the natural
alignment of the element type, provided the platform allocator aligns its
blocks: the zero-capacity dangling address is the alignment itself, and a
platform block is aligned by assumption. -/
theorem do_allocate_aligned (p : Platform) (T : UnitTy) (cap : Nat)
    (hp : PlatformAligned p) : T.align ∣ do_allocate p T cap := by
  unfold do_allocate vec_with_capacity_ptr
  split
  · exact dvd_refl _
  · exact hp T cap

/-- C1: the claim that the argument-validation assertion passes for every
size that is a multiple of align fails on the code: at size = 8, align = 8
(a multiple of 8), the assertion `size & align == 0` computes 8 &&& 8 = 8 ≠ 0
and allocate aborts on its precondition check, for any platform allocator.
The check tests bit log2(align) of size instead of divisibility
(`size & (align - 1)`), contradicting the function's own documented
contract. -/
theorem C1_assert_rejects_multiple (p : Platform) :
    8 % 8 = 0 ∧ allocate p 8 8 = .assertFailed :=
  ⟨rfl, rfl⟩

/-- C2: when its precondition check passes, align is supported, and the
platform allocator reports out-of-memory (null, address 0) for the
dispatched request, allocate forwards the null pointer as its normal return
value rather than aborting. -/
theorem C2_null_on_oom (p : Platform) (size align : Nat)
    (halign : align = 1 ∨ align = 2 ∨ align = 4 ∨ align = 8)
    (hassert : size &&& align = 0)
    (hpos : 0 < size >>> log2align align)
    (hoom : p.rawAlloc (unitOf align) (size >>> log2align align) = 0) :
    allocate p size align = .ok 0 := by
  have hne : size >>> log2align align ≠ 0 := Nat.pos_iff_ne_zero.mp hpos
  rcases halign with h | h | h | h <;> subst h <;>
    simp_all [allocate, do_allocate, vec_with_capacity_ptr, unitOf, log2align,
      u8, u16, u32, u64]

/-- C2 witness: a platform that always reports out-of-memory makes
allocate(2048, 4) return the null pointer. -/
theorem C2_witness : allocate oomPlatform 2048 4 = .ok 0 :=
  C2_null_on_oom oomPlatform 2048 4
    (Or.inr (Or.inr (Or.inl rfl))) (by decide) (by decide) rfl

/-- C3: for every align outside the supported set {1,2,4,8}, both allocate
and deallocate terminate with a fatal abort rather than returning normally:
allocate panics either at the assertion or at the unsupported-alignment
match arm, and deallocate panics at its unsupported-alignment match arm. -/
theorem C3_unsupported_align_aborts (p : Platform) (size ptr old_size align : Nat)
    (h1 : align ≠ 1) (h2 : align ≠ 2) (h4 : align ≠ 4) (h8 : align ≠ 8) :
    (allocate p size align).isAbort = true ∧
    (deallocate ptr old_size align).isAbort = true := by
  constructor
  · unfold allocate
    split
    · split <;> simp_all [AllocResult.isAbort]
    · rfl
  · unfold deallocate
    split <;> simp_all [DeallocResult.isAbort]

/-- C3 witness: at align = 3 both operations abort. -/
theorem C3_witness :
    (allocate oomPlatform 5 3).isAbort = true ∧
    (deallocate 1 5 3).isAbort = true :=
  C3_unsupported_align_aborts oomPlatform 5 1 5 3
    (by decide) (by decide) (by decide) (by decide)

/-- C4: for every supported align whose assertion passes, allocate dispatches
to the unit type of size and natural alignment equal to align and requests
exactly size >> log2(align) elements from the platform allocator; the shift
amount is log2(align), and when size is a multiple of align the element
count is size / align and the requested buffer spans exactly size bytes. -/
theorem C4_dispatch_unit_and_count (p : Platform) (size align : Nat)
    (halign : align = 1 ∨ align = 2 ∨ align = 4 ∨ align = 8)
    (hassert : size &&& align = 0) :
    allocate p size align =
      .ok (do_allocate p (unitOf align) (size >>> log2align align)) ∧
    (unitOf align).align = align ∧
    (unitOf align).size = align ∧
    2 ^ log2align align = align ∧
    (align ∣ size → size >>> log2align align = size / align ∧
      size >>> log2align align * (unitOf align).size = size) := by
  rcases halign with h | h | h | h <;> subst h <;>
    refine ⟨by simp [allocate, hassert, unitOf, log2align], rfl, rfl, rfl, fun hdvd => ?_⟩ <;>
    rw [Nat.shiftRight_eq_div_pow] <;>
    exact ⟨rfl, Nat.div_mul_cancel hdvd⟩

/-- C4 witness: the test input size = 2048, align = 4. -/
theorem C4_witness :
    allocate oomPlatform 2048 4 =
      .ok (do_allocate oomPlatform (unitOf 4) (2048 >>> log2align 4)) ∧
    (unitOf 4).align = 4 ∧
    (unitOf 4).size = 4 ∧
    2 ^ log2align 4 = 4 ∧
    (4 ∣ 2048 → 2048 >>> log2align 4 = 2048 / 4 ∧
      2048 >>> log2align 4 * (unitOf 4).size = 2048) :=
  C4_dispatch_unit_and_count oomPlatform 2048 4
    (Or.inr (Or.inr (Or.inl rfl))) (by decide)

/-- C5: for every supported align and every old_size, deallocate
reconstructs a buffer handle over the same unit type that allocate selects
for that align, with logical length zero (so no per-element destructor logic
runs and the block's contents are never interpreted) and capacity
old_size >> log2(align), located at ptr. -/
theorem C5_deallocate_reconstruction (ptr old_size align : Nat)
    (halign : align = 1 ∨ align = 2 ∨ align = 4 ∨ align = 8) :
    deallocate ptr old_size align =
      .ok (do_deallocate (unitOf align) ptr (old_size >>> log2align align)) ∧
    (do_deallocate (unitOf align) ptr (old_size >>> log2align align)).T = unitOf align ∧
    (do_deallocate (unitOf align) ptr (old_size >>> log2align align)).len = 0 ∧
    (do_deallocate (unitOf align) ptr (old_size >>> log2align align)).ptr = ptr ∧
    (do_deallocate (unitOf align) ptr (old_size >>> log2align align)).cap =
      old_size >>> log2align align := by
  rcases halign with h | h | h | h <;> subst h <;>
    exact ⟨by simp [deallocate, unitOf, log2align], rfl, rfl, rfl, rfl⟩

/-- C5 witness: the test input ptr = 64, old_size = 2048, align = 4. -/
theorem C5_witness :
    deallocate 64 2048 4 =
      .ok (do_deallocate (unitOf 4) 64 (2048 >>> log2align 4)) ∧
    (do_deallocate (unitOf 4) 64 (2048 >>> log2align 4)).T = unitOf 4 ∧
    (do_deallocate (unitOf 4) 64 (2048 >>> log2align 4)).len = 0 ∧
    (do_deallocate (unitOf 4) 64 (2048 >>> log2align 4)).ptr = 64 ∧
    (do_deallocate (unitOf 4) 64 (2048 >>> log2align 4)).cap =
      2048 >>> log2align 4 :=
  C5_deallocate_reconstruction 64 2048 4 (Or.inr (Or.inr (Or.inl rfl)))

/-- C6: over a platform allocator that aligns every block of T-elements to
the natural alignment of T, every non-null pointer returned normally by
allocate for a supported align and a valid size multiple of align is
divisible by align. -/
theorem C6_returned_pointer_aligned (p : Platform) (size align ptr : Nat)
    (hp : PlatformAligned p)
    (halign : align = 1 ∨ align = 2 ∨ align = 4 ∨ align = 8)
    (hdvd : align ∣ size)
    (hok : allocate p size align = .ok ptr)
    (hnn : ptr ≠ 0) :
    align ∣ ptr := by
  rcases halign with h | h | h | h <;> subst h <;>
    simp only [allocate] at hok <;> split at hok <;>
    simp only [AllocResult.ok.injEq, reduceCtorEq] at hok <;>
    exact hok ▸ do_allocate_aligned p _ _ hp

/-- C6 witness: the aligned platform at size = 2048, align = 4 returns the
non-null address 4, divisible by 4. -/
theorem C6_witness : (4 : Nat) ∣ 4 :=
  C6_returned_pointer_aligned alignedPlatform 2048 4 4
    (fun T _ => dvd_refl T.align)
    (Or.inr (Or.inr (Or.inl rfl)))
    (by decide) (by decide) (by decide)

/-- C7: for every valid pair — supported align, positive size that is a
multiple of align and passes the precondition check — allocate returns
normally and an immediately following deallocate with the same size and
align returns normally: neither aborts. -/
theorem C7_roundtrip_no_abort (p : Platform) (size align ptr : Nat)
    (halign : align = 1 ∨ align = 2 ∨ align = 4 ∨ align = 8)
    (hassert : size &&& align = 0)
    (hdvd : align ∣ size)
    (hpos : 0 < size) :
    (allocate p size align).isAbort = false ∧
    (deallocate ptr size align).isAbort = false := by
  rcases halign with h | h | h | h <;> subst h <;>
    exact ⟨by simp [allocate, hassert, AllocResult.isAbort],
      by simp [deallocate, DeallocResult.isAbort]⟩

/-- C7 witness: the test's round trip allocate(2048, 4) then
deallocate(ptr, 2048, 4) at the returned pointer 4. -/
theorem C7_witness :
    (allocate alignedPlatform 2048 4).isAbort = false ∧
    (deallocate 4 2048 4).isAbort = false :=
  C7_roundtrip_no_abort alignedPlatform 2048 4 4
    (Or.inr (Or.inr (Or.inl rfl))) (by decide) (by decide) (by decide)

/-- C8 counterexample: the base pointer of a zero-capacity allocation for
the element type u64 is its dangling address 8, not the EMPTY address 1, so
EMPTY does not equal the zero-capacity base pointer for every element
type. -/
theorem C8_counterexample : vec_with_capacity_ptr oomPlatform u64 0 ≠ EMPTY := by
  decide

/-- C8 (amended): EMPTY is the fixed non-null address 1, and a zero-capacity
allocation reports base pointer EMPTY exactly for element types of natural
alignment 1 — in particular for the unit type (), the representative type
the repository's test checks; for other unit types the reported base
pointer is the type's own alignment. -/
theorem C8_empty_sentinel (p : Platform) (T : UnitTy) :
    EMPTY = 1 ∧ EMPTY ≠ 0 ∧
    (vec_with_capacity_ptr p T 0 = EMPTY ↔ T.align = 1) ∧
    vec_with_capacity_ptr p rustUnit 0 = EMPTY := by
  refine ⟨rfl, by decide, ?_, rfl⟩
  unfold vec_with_capacity_ptr EMPTY
  simp

/-- C9: for every supported align, allocate(0, align) passes the assertion
(0 &&& align = 0), returns normally, and the returned address is the
dispatched unit type's alignment, i.e. align itself — a non-null dangling
pointer, not null and not an abort. -/
theorem C9_zero_size_allocate (p : Platform) (align : Nat)
    (halign : align = 1 ∨ align = 2 ∨ align = 4 ∨ align = 8) :
    0 &&& align = 0 ∧
    allocate p 0 align = .ok align ∧
    (unitOf align).align = align ∧
    align ≠ 0 := by
  rcases halign with h | h | h | h <;> subst h <;>
    exact ⟨rfl, rfl, rfl, by decide⟩

/-- C9 witness: align = 8 gives the dangling address 8. -/
theorem C9_witness :
    0 &&& 8 = 0 ∧
    allocate oomPlatform 0 8 = .ok 8 ∧
    (unitOf 8).align = 8 ∧
    (8 : Nat) ≠ 0 :=
  C9_zero_size_allocate oomPlatform 8 (Or.inr (Or.inr (Or.inr rfl)))

/-- C10: deallocate performs no size/alignment consistency assertion: for
every supported align and every old_size — including values that are not
multiples of align — it reaches its dispatch without aborting, silently
truncating old_size to old_size >> log2(align) = old_size / align. -/
theorem C10_deallocate_no_assert (ptr old_size align : Nat)
    (halign : align = 1 ∨ align = 2 ∨ align = 4 ∨ align = 8) :
    (deallocate ptr old_size align).isAbort = false ∧
    deallocate ptr old_size align =
      .ok (do_deallocate (unitOf align) ptr (old_size >>> log2align align)) ∧
    old_size >>> log2align align = old_size / align := by
  rcases halign with h | h | h | h <;> subst h <;>
    refine ⟨by simp [deallocate, DeallocResult.isAbort],
      by simp [deallocate, unitOf, log2align], ?_⟩ <;>
    rw [Nat.shiftRight_eq_div_pow] <;> rfl

/-- C10 witness: old_size = 7 is not a multiple of align = 4, yet deallocate
returns normally with the truncated capacity 7 / 4 = 1. -/
theorem C10_witness :
    (deallocate 8 7 4).isAbort = false ∧
    deallocate 8 7 4 = .ok (do_deallocate (unitOf 4) 8 (7 >>> log2align 4)) ∧
    7 >>> log2align 4 = 7 / 4 :=
  C10_deallocate_no_assert 8 7 4 (Or.inr (Or.inr (Or.inl rfl)))

end StableHeap
